import Mathlib

/-!
Verification development for the crypto-portfolio application (src/App.py).

The ledger, portfolio projection, valuation, exchange-rate and summary-card
computations of App.py are embedded shallowly:

* Python floats become exact rationals (ℚ), so the algebraic identities of the
  computation are stated exactly; the source's epsilon threshold 1e-9 is kept
  as the rational 1/1000000000.
* a pandas DataFrame of transactions becomes a `List Transaction`, and market
  data becomes a `List MarketRow`; `dict.get(k, d)` becomes `find?` + `getD`.
* the BigQuery store becomes a `List Transaction`; the DELETE/UPDATE statements
  of `delete_transaction_from_bq` / `update_transaction_in_bq` become filter
  and map over that list, keyed as in the SQL by (user_id, transaction_id).
* fetching the bitcoin quote in `get_exchange_rate` may fail (the except
  branch); the fetch result is passed in as an `Option`, and the non-fatal
  warning of the except branch is returned as a Bool flag.
-/

/-- A row of the transactions table (BIGQUERY_SCHEMA_TRANSACTIONS in App.py). -/
structure Transaction where
  transaction_id : String
  user_id : String
  transaction_date : Int
  coin_id : String
  coin_name : String
  exchange : String
  transaction_type : String
  quantity : ℚ
  price_jpy : ℚ
  fee_jpy : ℚ
  total_jpy : ℚ
deriving DecidableEq

/-- A row of the CoinGecko market-data frame, restricted to the columns the
portfolio calculation reads: id, name, current_price and the 24h percentage
change (which pandas may hold as null, hence `Option`). -/
structure MarketRow where
  id : String
  name : String
  current_price : ℚ
  price_change_percentage_24h : Option ℚ
deriving DecidableEq

/-- TRANSACTION_TYPES_BUY from App.py: additive transaction kinds. -/
def TRANSACTION_TYPES_BUY : List String := ["購入", "調整（増）"]

/-- TRANSACTION_TYPES_SELL from App.py: subtractive transaction kinds. -/
def TRANSACTION_TYPES_SELL : List String := ["売却", "調整（減）"]

/-- The 1e-9 threshold used by calculate_portfolio. -/
def epsilon : ℚ := 1 / 1000000000

/-- price_map.get(coin_id, 0): current price of a coin, defaulting to 0 when
the coin is absent from the market data. -/
def price_of (m : List MarketRow) (c : String) : ℚ :=
  ((m.find? (fun r => r.id == c)).map (fun r => r.current_price)).getD 0

/-- The per-row entry of yesterday_price_map in calculate_portfolio:
current_price / (1 + pct/100) when the percentage is non-null and the divisor
is nonzero, else current_price. -/
def yesterday_price (r : MarketRow) : ℚ :=
  match r.price_change_percentage_24h with
  | none => r.current_price
  | some p => if 1 + p / 100 ≠ 0 then r.current_price / (1 + p / 100) else r.current_price

/-- yesterday_price_map.get(coin_id, price): defaults to the (already
defaulted) current price when the coin is absent. -/
def yesterday_price_of (m : List MarketRow) (c : String) : ℚ :=
  ((m.find? (fun r => r.id == c)).map yesterday_price).getD (price_of m c)

/-- change_24h = price - yesterday_price, as computed per coin in
calculate_portfolio. -/
def change_24h (m : List MarketRow) (c : String) : ℚ :=
  price_of m c - yesterday_price_of m c

/-- The coin_name lookup of calculate_portfolio: market name, with the
KeyError fallback to the coin id. -/
def name_of (m : List MarketRow) (c : String) : String :=
  ((m.find? (fun r => r.id == c)).map (fun r => r.name)).getD c

/-- The group of transactions for one (coin_id, exchange) key, i.e. one group
of transactions_df.groupby(['コインID', '取引所']). -/
def groupOf (txs : List Transaction) (k : String × String) : List Transaction :=
  txs.filter (fun t => t.coin_id == k.1 && t.exchange == k.2)

/-- buy_quantity of a group: sum of quantities over additive kinds. -/
def buySum (g : List Transaction) : ℚ :=
  ((g.filter (fun t => TRANSACTION_TYPES_BUY.contains t.transaction_type)).map
    (fun t => t.quantity)).sum

/-- sell_quantity of a group: sum of quantities over subtractive kinds. -/
def sellSum (g : List Transaction) : ℚ :=
  ((g.filter (fun t => TRANSACTION_TYPES_SELL.contains t.transaction_type)).map
    (fun t => t.quantity)).sum

/-- current_quantity = buy_quantity - sell_quantity for one key. -/
def current_quantity (txs : List Transaction) (k : String × String) : ℚ :=
  buySum (groupOf txs k) - sellSum (groupOf txs k)

/-- The distinct (coin_id, exchange) keys of the transaction set, i.e. the
keys groupby iterates over. -/
def keysOf (txs : List Transaction) : List (String × String) :=
  (txs.map (fun t => (t.coin_id, t.exchange))).dedup

/-- One value of the portfolio dict built by calculate_portfolio. -/
structure Holding where
  coin_name : String
  exchange : String
  quantity : ℚ
  price : ℚ
  value : ℚ
  coin_id : String
deriving DecidableEq

/-- The portfolio entry calculate_portfolio produces for one key: present with
the net quantity, price and value when current_quantity > 1e-9, absent
otherwise. -/
def entryFor (m : List MarketRow) (txs : List Transaction) (k : String × String) :
    Option ((String × String) × Holding) :=
  let q := current_quantity txs k
  if q > epsilon then
    some (k, { coin_name := name_of m k.1, exchange := k.2, quantity := q,
               price := price_of m k.1, value := q * price_of m k.1, coin_id := k.1 })
  else none

/-- The portfolio dict: one entry per qualifying group key. -/
def portfolio_entries (txs : List Transaction) (m : List MarketRow) :
    List ((String × String) × Holding) :=
  (keysOf txs).filterMap (entryFor m txs)

/-- total_asset_jpy: the loop of calculate_portfolio accumulates
current_quantity * price over the qualifying keys. -/
def total_asset_jpy (txs : List Transaction) (m : List MarketRow) : ℚ :=
  ((keysOf txs).map (fun k =>
    if current_quantity txs k > epsilon then current_quantity txs k * price_of m k.1
    else 0)).sum

/-- total_change_24h_jpy: the loop accumulates current_quantity * change_24h
over the qualifying keys. -/
def total_change_24h_jpy (txs : List Transaction) (m : List MarketRow) : ℚ :=
  ((keysOf txs).map (fun k =>
    if current_quantity txs k > epsilon then current_quantity txs k * change_24h m k.1
    else 0)).sum

/-- calculate_portfolio from App.py: the early return on an empty frame, then
the grouped fold producing the portfolio dict and the two totals. -/
def calculate_portfolio (txs : List Transaction) (m : List MarketRow) :
    List ((String × String) × Holding) × ℚ × ℚ :=
  if txs.isEmpty then ([], 0, 0)
  else (portfolio_entries txs m, total_asset_jpy txs m, total_change_24h_jpy txs m)

/-- Dictionary lookup in the portfolio dict. -/
def lookupEntry (p : List ((String × String) × Holding)) (k : String × String) :
    Option Holding :=
  (p.find? (fun e => decide (e.1 = k))).map (fun e => e.2)

/-- The numbers computed by display_summary_card for the visible branch (the
balance-hidden branch renders only placeholder strings and computes nothing). -/
structure SummaryCard where
  asset_display : ℚ
  btc_display : ℚ
  change_display : ℚ
  change_pct : ℚ
deriving DecidableEq

/-- display_summary_card from App.py, visible branch: converts both totals to
the display currency by multiplying with the rate, and computes the 24h change
percentage against yesterday_asset, guarded by yesterday_asset != 0. -/
def display_summary_card (total_asset : ℚ) (total_asset_btc : ℚ)
    (total_change_24h : ℚ) (rate : ℚ) : SummaryCard :=
  let yesterday_asset := total_asset - total_change_24h
  let change_pct := if yesterday_asset ≠ 0 then total_change_24h / yesterday_asset * 100 else 0
  { asset_display := total_asset * rate
    btc_display := total_asset_btc
    change_display := total_change_24h * rate
    change_pct := change_pct }

/-- The bitcoin quote fetched by get_exchange_rate: prices['bitcoin']['jpy']
and prices['bitcoin'][target]. -/
structure BitcoinQuote where
  jpy : ℚ
  target : ℚ
deriving DecidableEq

/-- ASCII lower-casing of one character, as Python str.lower acts on the
ASCII currency codes this app passes around. -/
def charLower (c : Char) : Char :=
  if 65 ≤ c.toNat ∧ c.toNat ≤ 90 then Char.ofNat (c.toNat + 32) else c

/-- ASCII lower-casing of a string (the target_currency.lower() call). -/
def strLower (s : String) : String := String.mk (s.data.map charLower)

/-- get_exchange_rate from App.py. The CoinGecko call is passed in as an
`Option BitcoinQuote` (`none` means the call raised). Returns the rate and a
Bool that is true when the except branch issued its non-fatal warning; a
zero jpy quote makes the division raise in Python and is likewise caught by
the except branch. -/
def get_exchange_rate (target_currency : String) (fetch : Option BitcoinQuote) :
    ℚ × Bool :=
  if strLower target_currency == "jpy" then (1, false)
  else
    match fetch with
    | none => (1, true)
    | some q => if q.jpy == 0 then (1, true) else (q.target / q.jpy, false)

/-- calculate_btc_value from App.py: total / bitcoin price when that price is
positive, 0 otherwise; the KeyError branch (bitcoin absent from market data)
returns 0. -/
def calculate_btc_value (total_asset : ℚ) (m : List MarketRow) : ℚ :=
  match m.find? (fun r => r.id == "bitcoin") with
  | some r => if r.current_price > 0 then total_asset / r.current_price else 0
  | none => 0

/-- The per-transaction data supplied to add_transaction_to_bq (the dict built
by the submission form). -/
structure TransactionData where
  transaction_date : Int
  coin_id : String
  coin_name : String
  exchange : String
  transaction_type : String
  quantity : ℚ
  price_jpy : ℚ
  fee_jpy : ℚ
  total_jpy : ℚ
deriving DecidableEq

/-- The row the INSERT of add_transaction_to_bq writes: the caller's user_id,
the freshly generated uuid4 surrogate id, and the form data. -/
def new_transaction (user_id : String) (generated_id : String)
    (d : TransactionData) : Transaction :=
  { transaction_id := generated_id, user_id := user_id,
    transaction_date := d.transaction_date, coin_id := d.coin_id,
    coin_name := d.coin_name, exchange := d.exchange,
    transaction_type := d.transaction_type, quantity := d.quantity,
    price_jpy := d.price_jpy, fee_jpy := d.fee_jpy, total_jpy := d.total_jpy }

/-- add_transaction_to_bq from App.py: INSERT of one row carrying a freshly
generated uuid4 transaction_id (the generated id is a parameter here). -/
def add_transaction_to_bq (store : List Transaction) (user_id : String)
    (generated_id : String) (d : TransactionData) : List Transaction :=
  store ++ [new_transaction user_id generated_id d]

/-- delete_transaction_from_bq from App.py: DELETE WHERE user_id = @user_id
AND transaction_id = @transaction_id. -/
def delete_transaction_from_bq (store : List Transaction) (user_id : String)
    (transaction_id : String) : List Transaction :=
  store.filter (fun r => !(r.user_id == user_id && r.transaction_id == transaction_id))

/-- The SET clause of update_transaction_in_bq. -/
structure TransactionUpdate where
  transaction_date : Int
  exchange : String
  quantity : ℚ
  price_jpy : ℚ
  fee_jpy : ℚ
  total_jpy : ℚ
deriving DecidableEq

/-- Application of the SET clause to one row. -/
def apply_update (u : TransactionUpdate) (r : Transaction) : Transaction :=
  { r with transaction_date := u.transaction_date, exchange := u.exchange,
           quantity := u.quantity, price_jpy := u.price_jpy,
           fee_jpy := u.fee_jpy, total_jpy := u.total_jpy }

/-- update_transaction_in_bq from App.py: UPDATE ... WHERE user_id = @user_id
AND transaction_id = @transaction_id. -/
def update_transaction_in_bq (store : List Transaction) (user_id : String)
    (transaction_id : String) (u : TransactionUpdate) : List Transaction :=
  store.map (fun r =>
    if r.user_id == user_id && r.transaction_id == transaction_id
    then apply_update u r else r)

/-- The natural key of §4.4 of the spec:
(timestamp, assetId, venue, kind, quantity). -/
def natural_key (t : Transaction) : Int × String × String × String × ℚ :=
  (t.transaction_date, t.coin_id, t.exchange, t.transaction_type, t.quantity)

/-- An adjustment transaction for key k with the given kind and quantity:
zero price, fee and total. -/
def adjustment_transaction (kind : String) (tid uid : String) (date : Int)
    (k : String × String) (name : String) (x : ℚ) : Transaction :=
  { transaction_id := tid, user_id := uid, transaction_date := date,
    coin_id := k.1, coin_name := name, exchange := k.2,
    transaction_type := kind, quantity := x,
    price_jpy := 0, fee_jpy := 0, total_jpy := 0 }

/-- Example record: a BUY of 1 unit of coin aaa at exchange X. -/
def r1ex : Transaction :=
  { transaction_id := "id1", user_id := "u", transaction_date := 0,
    coin_id := "aaa", coin_name := "A", exchange := "X",
    transaction_type := "購入", quantity := 1,
    price_jpy := 100, fee_jpy := 0, total_jpy := 100 }

/-- Example record sharing every natural-key field with r1ex but carrying a
different surrogate transaction_id. -/
def r2ex : Transaction := { r1ex with transaction_id := "id2" }

/-- Example record: a SELL of 0.25 units of coin aaa at exchange X, with the
same timestamp as r1ex. -/
def r3ex : Transaction :=
  { transaction_id := "id3", user_id := "u", transaction_date := 0,
    coin_id := "aaa", coin_name := "A", exchange := "X",
    transaction_type := "売却", quantity := 1/4,
    price_jpy := 100, fee_jpy := 0, total_jpy := 25 }

/-- Example record: a BUY of 2 units of coin bbb at exchange X. -/
def r4ex : Transaction :=
  { transaction_id := "id4", user_id := "u", transaction_date := 0,
    coin_id := "bbb", coin_name := "B", exchange := "X",
    transaction_type := "購入", quantity := 2,
    price_jpy := 0, fee_jpy := 0, total_jpy := 0 }

/-- Example market row for coin aaa. -/
def mrowEx : MarketRow :=
  { id := "aaa", name := "A", current_price := 10,
    price_change_percentage_24h := some 25 }

/-- Example form data for add_transaction_to_bq. -/
def dEx : TransactionData :=
  { transaction_date := 5, coin_id := "ccc", coin_name := "C", exchange := "Y",
    transaction_type := "購入", quantity := 3, price_jpy := 7, fee_jpy := 1,
    total_jpy := 21 }

/-- Example SET clause for update_transaction_in_bq. -/
def uEx : TransactionUpdate :=
  { transaction_date := 9, exchange := "Z", quantity := 4, price_jpy := 8,
    fee_jpy := 2, total_jpy := 32 }

theorem calculate_portfolio_eq (txs : List Transaction) (m : List MarketRow) :
    calculate_portfolio txs m
      = (portfolio_entries txs m, total_asset_jpy txs m, total_change_24h_jpy txs m) := by
  unfold calculate_portfolio
  cases txs with
  | nil => simp [portfolio_entries, total_asset_jpy, total_change_24h_jpy, keysOf]
  | cons a t => simp

theorem entryFor_key (m : List MarketRow) (txs : List Transaction)
    (k : String × String) (e : (String × String) × Holding)
    (h : entryFor m txs k = some e) : e.1 = k := by
  unfold entryFor at h
  by_cases hq : current_quantity txs k > epsilon
  · simp only [hq, if_pos] at h
    cases h
    rfl
  · simp [hq] at h

theorem lookupEntry_filterMap (m : List MarketRow) (txs : List Transaction)
    (k : String × String) (L : List (String × String)) (hnd : L.Nodup) :
    lookupEntry (L.filterMap (entryFor m txs)) k
      = if k ∈ L then (entryFor m txs k).map (fun e => e.2) else none := by
  induction L with
  | nil => simp [lookupEntry]
  | cons a t ih =>
    have hnd2 : t.Nodup := (List.nodup_cons.mp hnd).2
    have hna : a ∉ t := (List.nodup_cons.mp hnd).1
    rw [List.filterMap_cons]
    cases he : entryFor m txs a with
    | none =>
      rw [ih hnd2]
      by_cases hk : k = a
      · subst hk
        simp [he, hna]
      · simp [List.mem_cons, hk]
    | some e =>
      have hkey : e.1 = a := entryFor_key m txs a e he
      unfold lookupEntry
      rw [List.find?_cons]
      by_cases hk : a = k
      · subst hk
        simp [hkey, he]
      · have : (decide (e.1 = k)) = false := by
          simp [hkey]
          exact hk
        rw [this]
        have := ih hnd2
        unfold lookupEntry at this
        rw [this]
        have hk2 : ¬ k = a := fun h2 => hk h2.symm
        simp [List.mem_cons, hk2]

theorem not_mem_keys_quantity_zero (txs : List Transaction) (k : String × String)
    (h : k ∉ keysOf txs) : current_quantity txs k = 0 := by
  have hg : groupOf txs k = [] := by
    unfold keysOf at h
    rw [List.mem_dedup] at h
    unfold groupOf
    rw [List.filter_eq_nil_iff]
    intro t ht hmatch
    apply h
    rw [List.mem_map]
    refine ⟨t, ht, ?_⟩
    simp only [Bool.and_eq_true, beq_iff_eq] at hmatch
    exact Prod.ext hmatch.1 hmatch.2
  unfold current_quantity
  rw [hg]
  simp [buySum, sellSum]

theorem lookupEntry_portfolio (txs : List Transaction) (m : List MarketRow)
    (k : String × String) :
    lookupEntry (portfolio_entries txs m) k = (entryFor m txs k).map (fun e => e.2) := by
  unfold portfolio_entries
  rw [lookupEntry_filterMap m txs k (keysOf txs) (List.nodup_dedup _)]
  by_cases hk : k ∈ keysOf txs
  · simp [hk]
  · have hq : current_quantity txs k = 0 := not_mem_keys_quantity_zero txs k hk
    have he : entryFor m txs k = none := by
      unfold entryFor
      rw [hq]
      simp [epsilon]
    simp [hk, he]

theorem total_asset_as_sum_over_entries (txs : List Transaction) (m : List MarketRow) :
    total_asset_jpy txs m
      = ((portfolio_entries txs m).map (fun e => e.2.quantity * price_of m e.1.1)).sum := by
  unfold total_asset_jpy portfolio_entries
  induction keysOf txs with
  | nil => simp
  | cons a t ih =>
    rw [List.map_cons, List.sum_cons, List.filterMap_cons]
    by_cases hq : current_quantity txs a > epsilon
    · have he : entryFor m txs a
          = some (a, { coin_name := name_of m a.1, exchange := a.2,
                       quantity := current_quantity txs a, price := price_of m a.1,
                       value := current_quantity txs a * price_of m a.1,
                       coin_id := a.1 }) := by
        unfold entryFor
        simp [hq]
      rw [he, if_pos hq, List.map_cons, List.sum_cons, ih]
    · have he : entryFor m txs a = none := by
        unfold entryFor
        simp [hq]
      rw [he, if_neg hq, ih]
      ring

theorem total_change_as_sum_over_entries (txs : List Transaction) (m : List MarketRow) :
    total_change_24h_jpy txs m
      = ((portfolio_entries txs m).map (fun e => e.2.quantity * change_24h m e.1.1)).sum := by
  unfold total_change_24h_jpy portfolio_entries
  induction keysOf txs with
  | nil => simp
  | cons a t ih =>
    rw [List.map_cons, List.sum_cons, List.filterMap_cons]
    by_cases hq : current_quantity txs a > epsilon
    · have he : entryFor m txs a
          = some (a, { coin_name := name_of m a.1, exchange := a.2,
                       quantity := current_quantity txs a, price := price_of m a.1,
                       value := current_quantity txs a * price_of m a.1,
                       coin_id := a.1 }) := by
        unfold entryFor
        simp [hq]
      rw [he, if_pos hq, List.map_cons, List.sum_cons, ih]
    · have he : entryFor m txs a = none := by
        unfold entryFor
        simp [hq]
      rw [he, if_neg hq, ih]
      ring

/-- Claim C2: the valuation returns totalValue = sum over holdings of
quantity * price, totalChange24h = sum over holdings of quantity * 24h price
change, and the displayed total is totalValue * rate (the identity when
rate = 1). -/
theorem calculate_portfolio_valuation_linear (txs : List Transaction)
    (m : List MarketRow) (ta tb tc rate : ℚ) :
    ((calculate_portfolio txs m).2.1
      = (((calculate_portfolio txs m).1).map (fun e => e.2.quantity * price_of m e.1.1)).sum)
    ∧ ((calculate_portfolio txs m).2.2
      = (((calculate_portfolio txs m).1).map (fun e => e.2.quantity * change_24h m e.1.1)).sum)
    ∧ (display_summary_card ta tb tc rate).asset_display = ta * rate
    ∧ (display_summary_card ta tb tc rate).change_display = tc * rate
    ∧ (display_summary_card ta tb tc 1).asset_display = ta := by
  rw [calculate_portfolio_eq]
  refine ⟨total_asset_as_sum_over_entries txs m,
          total_change_as_sum_over_entries txs m, rfl, rfl, ?_⟩
  show ta * 1 = ta
  ring

/-- Claim C1: for every transaction set and every (assetId, venue) pair, the
projected quantity is the sum of additive-kind quantities minus the sum of
subtractive-kind quantities for the pair, the pair is present in the projected
holdings map iff that net quantity exceeds epsilon = 1e-9, and the empty
transaction set projects to the empty map with zero totals. -/
theorem calculate_portfolio_projection_correct (m : List MarketRow)
    (txs : List Transaction) (k : String × String) :
    ((lookupEntry (calculate_portfolio txs m).1 k).map (fun h => h.quantity)
      = if buySum (groupOf txs k) - sellSum (groupOf txs k) > epsilon
        then some (buySum (groupOf txs k) - sellSum (groupOf txs k)) else none)
    ∧ calculate_portfolio [] m = ([], 0, 0) := by
  constructor
  · rw [calculate_portfolio_eq]
    simp only
    rw [lookupEntry_portfolio]
    unfold entryFor current_quantity
    by_cases hq : buySum (groupOf txs k) - sellSum (groupOf txs k) > epsilon
    · simp [hq]
    · simp [hq]
  · rfl

/-- Claim C4 counterexample: with totalValue = 0 and totalChange24h = 10 the
yesterday total is -10 <= 0, yet display_summary_card computes -100, not the 0
the claim requires for a non-positive yesterday total. -/
theorem change_pct_negative_yesterday_counterexample :
    (display_summary_card 0 0 10 1).change_pct = -100
    ∧ ((0:ℚ) - 10 ≤ 0) ∧ ((-100:ℚ) ≠ 0) := by
  refine ⟨?_, by norm_num, by norm_num⟩
  norm_num [display_summary_card]

/-- Claim C4 as amended: the 24h change percentage equals
totalChange24h / yesterdayTotal * 100 whenever yesterdayTotal is nonzero
(including negative values), and equals 0 exactly when yesterdayTotal = 0;
it is a total function, never NaN or undefined. -/
theorem change_pct_guard_amended (ta tb tc rate : ℚ) :
    (ta - tc ≠ 0 → (display_summary_card ta tb tc rate).change_pct = tc / (ta - tc) * 100)
    ∧ (ta - tc = 0 → (display_summary_card ta tb tc rate).change_pct = 0) := by
  constructor
  · intro h
    simp [display_summary_card, h]
  · intro h
    simp [display_summary_card, h]

theorem change_pct_guard_amended_witness :
    (((2:ℚ) - 1 ≠ 0) ∧ (display_summary_card 2 0 1 1).change_pct = 1 / ((2:ℚ) - 1) * 100)
    ∧ (((1:ℚ) - 1 = 0) ∧ (display_summary_card 1 0 1 1).change_pct = 0) :=
  ⟨⟨by norm_num, (change_pct_guard_amended 2 0 1 1).1 (by norm_num)⟩,
   ⟨by norm_num, (change_pct_guard_amended 1 0 1 1).2 (by norm_num)⟩⟩

/-- Claim C5: appending an ADJUST_INCREASE of quantity x and then an
ADJUST_DECREASE of quantity x for the same (assetId, venue) key leaves the
projected quantity for that key unchanged (exactly, hence within epsilon),
and leaves the key's entry in the projected holdings map unchanged. -/
theorem adjust_round_trip (m : List MarketRow) (txs : List Transaction)
    (k : String × String) (x : ℚ) (tid1 tid2 uid name : String) (date1 date2 : Int) :
    (current_quantity
        (txs ++ [adjustment_transaction "調整（増）" tid1 uid date1 k name x,
                 adjustment_transaction "調整（減）" tid2 uid date2 k name x]) k
      = current_quantity txs k)
    ∧ (lookupEntry (calculate_portfolio
          (txs ++ [adjustment_transaction "調整（増）" tid1 uid date1 k name x,
                   adjustment_transaction "調整（減）" tid2 uid date2 k name x]) m).1 k
        = lookupEntry (calculate_portfolio txs m).1 k) := by
  have hq : current_quantity
      (txs ++ [adjustment_transaction "調整（増）" tid1 uid date1 k name x,
               adjustment_transaction "調整（減）" tid2 uid date2 k name x]) k
      = current_quantity txs k := by
    unfold current_quantity groupOf buySum sellSum
    rw [List.filter_append, List.filter_append, List.filter_append]
    simp [adjustment_transaction, TRANSACTION_TYPES_BUY, TRANSACTION_TYPES_SELL]
  refine ⟨hq, ?_⟩
  rw [calculate_portfolio_eq, calculate_portfolio_eq]
  simp only
  rw [lookupEntry_portfolio, lookupEntry_portfolio]
  unfold entryFor
  rw [hq]

/-- Claim C8: the numeraire-denominated total is totalValue divided by the
bitcoin price when that price is strictly positive, and 0 otherwise, including
when bitcoin is absent from the market data (where the defaulted price is 0). -/
theorem calculate_btc_value_spec (total : ℚ) (m : List MarketRow) :
    calculate_btc_value total m
      = if 0 < price_of m "bitcoin" then total / price_of m "bitcoin" else 0 := by
  unfold calculate_btc_value price_of
  cases hf : m.find? (fun r => r.id == "bitcoin") with
  | none => simp
  | some r => simp

/-- Claim C7: the cross-rate is the numeraire's (bitcoin's) price in the
display currency divided by its price in the reference currency (jpy); a
failed fetch (or a zero reference quote, which would raise in the division)
yields the neutral rate 1.0 together with the non-fatal warning flag; for the
reference currency itself the rate is 1.0 with no fetch and no warning. -/
theorem get_exchange_rate_spec (cur : String) (fetch : Option BitcoinQuote)
    (q : BitcoinQuote) :
    (get_exchange_rate "jpy" fetch = (1, false))
    ∧ (strLower cur ≠ "jpy" → get_exchange_rate cur none = (1, true))
    ∧ (strLower cur ≠ "jpy" → fetch = some q → q.jpy ≠ 0 →
        get_exchange_rate cur fetch = (q.target / q.jpy, false)) := by
  refine ⟨?_, ?_, ?_⟩
  · show get_exchange_rate "jpy" fetch = (1, false)
    unfold get_exchange_rate
    have h : (strLower "jpy" == "jpy") = true := by decide
    rw [h]
    simp
  · intro h
    simp [get_exchange_rate, h]
  · intro h hf hz
    subst hf
    simp [get_exchange_rate, h, hz]

theorem get_exchange_rate_spec_witness :
    (strLower "usd" ≠ "jpy") ∧ ((3:ℚ) ≠ 0)
    ∧ get_exchange_rate "usd" (some { jpy := 3, target := 2 }) = (2 / 3, false) :=
  ⟨by decide, by norm_num,
   (get_exchange_rate_spec "usd" (some { jpy := 3, target := 2 })
      { jpy := 3, target := 2 }).2.2 (by decide) rfl (by norm_num)⟩

/-- Claim C3 counterexample: two stored records r1ex and r2ex agree on the
whole natural-key tuple (timestamp, assetId, venue, kind, quantity) and belong
to the same user, yet deleting one of them (the operation is keyed by
user_id and transaction_id) leaves the other, tuple-matching record stored. -/
theorem natural_key_delete_counterexample :
    natural_key r2ex = natural_key r1ex
    ∧ r2ex ≠ r1ex
    ∧ delete_transaction_from_bq [r1ex, r2ex] "u" "id1" = [r2ex]
    ∧ r2ex ∈ delete_transaction_from_bq [r1ex, r2ex] "u" "id1" := by
  refine ⟨by decide, by decide, by decide, by decide⟩

/-- Claim C3 as amended: the stored ledger's delete operation removes exactly
the records whose user_id and transaction_id equal its arguments, and the
update operation applies the field changes to exactly those records; records
merely sharing the natural tuple (timestamp, assetId, venue, kind, quantity)
but carrying a different surrogate transaction_id are not affected. -/
theorem delete_update_by_surrogate_id (store : List Transaction)
    (uid tid : String) (u : TransactionUpdate) (r : Transaction) :
    (r ∈ delete_transaction_from_bq store uid tid
       ↔ r ∈ store ∧ ¬(r.user_id = uid ∧ r.transaction_id = tid))
    ∧ update_transaction_in_bq store uid tid u
        = store.map (fun t =>
            if t.user_id = uid ∧ t.transaction_id = tid then apply_update u t else t) := by
  constructor
  · unfold delete_transaction_from_bq
    rw [List.mem_filter]
    simp only [Bool.not_eq_true', Bool.and_eq_false_iff, beq_eq_false_iff_ne,
      ne_eq, Bool.and_eq_true, beq_iff_eq]
    tauto
  · unfold update_transaction_in_bq
    apply List.map_congr_left
    intro t ht
    by_cases hc : t.user_id = uid ∧ t.transaction_id = tid
    · simp [hc.1, hc.2, hc]
    · have hb : (t.user_id == uid && t.transaction_id == tid) = false := by
        simp [Bool.and_eq_true]
        intro h1 h2
        exact hc ⟨h1, h2⟩
      rw [hb]
      simp [hc]

theorem delete_update_by_surrogate_id_witness :
    (r2ex ∈ delete_transaction_from_bq [r1ex, r2ex] "u" "id1"
       ↔ r2ex ∈ [r1ex, r2ex] ∧ ¬(r2ex.user_id = "u" ∧ r2ex.transaction_id = "id1"))
    ∧ update_transaction_in_bq [r1ex, r2ex] "u" "id1" uEx
        = [r1ex, r2ex].map (fun t =>
            if t.user_id = "u" ∧ t.transaction_id = "id1" then apply_update uEx t else t) :=
  delete_update_by_surrogate_id [r1ex, r2ex] "u" "id1" uEx r2ex

/-- Claim C6: when an asset held with net quantity above epsilon has no entry
in the market data, its price and 24h change default to 0, so it contributes
0 to totalValue and to totalChange24h, while its (assetId, venue) pair still
appears in the projected holdings, valued at 0. -/
theorem missing_price_defaults_to_zero (m : List MarketRow)
    (txs : List Transaction) (k : String × String)
    (habsent : m.find? (fun r => r.id == k.1) = none)
    (hq : current_quantity txs k > epsilon) :
    price_of m k.1 = 0
    ∧ change_24h m k.1 = 0
    ∧ current_quantity txs k * price_of m k.1 = 0
    ∧ current_quantity txs k * change_24h m k.1 = 0
    ∧ lookupEntry (calculate_portfolio txs m).1 k
        = some { coin_name := name_of m k.1, exchange := k.2,
                 quantity := current_quantity txs k, price := 0, value := 0,
                 coin_id := k.1 } := by
  have hp : price_of m k.1 = 0 := by
    unfold price_of
    rw [habsent]
    rfl
  have hy : yesterday_price_of m k.1 = 0 := by
    unfold yesterday_price_of
    rw [habsent, hp]
    rfl
  have hc : change_24h m k.1 = 0 := by
    unfold change_24h
    rw [hp, hy]
    ring
  refine ⟨hp, hc, by rw [hp]; ring, by rw [hc]; ring, ?_⟩
  rw [calculate_portfolio_eq]
  simp only
  rw [lookupEntry_portfolio]
  unfold entryFor
  rw [if_pos hq, hp]
  simp

theorem missing_price_defaults_to_zero_witness :
    (([mrowEx].find? (fun r => r.id == "bbb") = none)
      ∧ current_quantity [r4ex] ("bbb", "X") > epsilon)
    ∧ (price_of [mrowEx] "bbb" = 0
      ∧ lookupEntry (calculate_portfolio [r4ex] [mrowEx]).1 ("bbb", "X")
          = some { coin_name := name_of [mrowEx] "bbb", exchange := "X",
                   quantity := current_quantity [r4ex] ("bbb", "X"), price := 0,
                   value := 0, coin_id := "bbb" }) :=
  ⟨⟨by decide, by with_unfolding_all decide⟩,
   ⟨(missing_price_defaults_to_zero [mrowEx] [r4ex] ("bbb", "X")
      (by decide) (by with_unfolding_all decide)).1,
    (missing_price_defaults_to_zero [mrowEx] [r4ex] ("bbb", "X")
      (by decide) (by with_unfolding_all decide)).2.2.2.2⟩⟩

theorem current_quantity_perm (txs1 txs2 : List Transaction)
    (h : List.Perm txs1 txs2) (k : String × String) :
    current_quantity txs1 k = current_quantity txs2 k := by
  unfold current_quantity groupOf buySum sellSum
  rw [List.Perm.sum_eq (List.Perm.map _ (List.Perm.filter _ (List.Perm.filter _ h))),
      List.Perm.sum_eq (List.Perm.map _ (List.Perm.filter _ (List.Perm.filter _ h)))]

theorem entryFor_perm (m : List MarketRow) (txs1 txs2 : List Transaction)
    (h : List.Perm txs1 txs2) (k : String × String) :
    entryFor m txs1 k = entryFor m txs2 k := by
  unfold entryFor
  rw [current_quantity_perm txs1 txs2 h k]

theorem total_asset_perm (m : List MarketRow) (txs1 txs2 : List Transaction)
    (h : List.Perm txs1 txs2) :
    total_asset_jpy txs1 m = total_asset_jpy txs2 m := by
  unfold total_asset_jpy keysOf
  have hfun : (fun k => if current_quantity txs1 k > epsilon
        then current_quantity txs1 k * price_of m k.1 else 0)
      = (fun k => if current_quantity txs2 k > epsilon
        then current_quantity txs2 k * price_of m k.1 else 0) := by
    funext k
    rw [current_quantity_perm txs1 txs2 h k]
  rw [hfun]
  exact List.Perm.sum_eq (List.Perm.map _ (List.Perm.dedup (List.Perm.map _ h)))

theorem total_change_perm (m : List MarketRow) (txs1 txs2 : List Transaction)
    (h : List.Perm txs1 txs2) :
    total_change_24h_jpy txs1 m = total_change_24h_jpy txs2 m := by
  unfold total_change_24h_jpy keysOf
  have hfun : (fun k => if current_quantity txs1 k > epsilon
        then current_quantity txs1 k * change_24h m k.1 else 0)
      = (fun k => if current_quantity txs2 k > epsilon
        then current_quantity txs2 k * change_24h m k.1 else 0) := by
    funext k
    rw [current_quantity_perm txs1 txs2 h k]
  rw [hfun]
  exact List.Perm.sum_eq (List.Perm.map _ (List.Perm.dedup (List.Perm.map _ h)))

/-- Claim C9: the projection is a pure function of the transaction multiset:
reordering the transactions (duplicate timestamps included) yields the same
holdings map (pointwise, under lookup) and the same two totals. -/
theorem calculate_portfolio_order_invariant (m : List MarketRow)
    (txs1 txs2 : List Transaction) (h : List.Perm txs1 txs2) :
    (∀ k, lookupEntry (calculate_portfolio txs1 m).1 k
        = lookupEntry (calculate_portfolio txs2 m).1 k)
    ∧ (calculate_portfolio txs1 m).2.1 = (calculate_portfolio txs2 m).2.1
    ∧ (calculate_portfolio txs1 m).2.2 = (calculate_portfolio txs2 m).2.2 := by
  rw [calculate_portfolio_eq, calculate_portfolio_eq]
  refine ⟨?_, total_asset_perm m txs1 txs2 h, total_change_perm m txs1 txs2 h⟩
  intro k
  simp only
  rw [lookupEntry_portfolio, lookupEntry_portfolio, entryFor_perm m txs1 txs2 h k]

theorem calculate_portfolio_order_invariant_witness :
    lookupEntry (calculate_portfolio [r1ex, r3ex] [mrowEx]).1 ("aaa", "X")
      = lookupEntry (calculate_portfolio [r3ex, r1ex] [mrowEx]).1 ("aaa", "X")
    ∧ (calculate_portfolio [r1ex, r3ex] [mrowEx]).2.1
      = (calculate_portfolio [r3ex, r1ex] [mrowEx]).2.1 :=
  ⟨(calculate_portfolio_order_invariant [mrowEx] [r1ex, r3ex] [r3ex, r1ex]
      (List.Perm.swap r3ex r1ex [])).1 ("aaa", "X"),
   (calculate_portfolio_order_invariant [mrowEx] [r1ex, r3ex] [r3ex, r1ex]
      (List.Perm.swap r3ex r1ex [])).2.1⟩

theorem length_le_one_of_same_id (tid : String) (l : List Transaction)
    (hnd : (l.map Transaction.transaction_id).Nodup)
    (hall : ∀ r ∈ l, r.transaction_id = tid) : l.length ≤ 1 := by
  cases l with
  | nil => simp
  | cons a t =>
    cases t with
    | nil => simp
    | cons b t2 =>
      exfalso
      rw [List.map_cons, List.map_cons, List.nodup_cons] at hnd
      apply hnd.1
      rw [hall a (List.mem_cons_self a _),
          hall b (List.mem_cons_of_mem a (List.mem_cons_self b t2))]
      exact List.mem_cons_self _ _

/-- Claim C10: every stored transaction is inserted with the freshly generated
surrogate transaction_id; delete and update touch at most the single record
whose user_id and transaction_id both match (at most one exists when stored
ids are distinct), and every record not matching both is retained. -/
theorem mutation_frame_by_surrogate_id (store : List Transaction)
    (uid gid tid : String) (d : TransactionData) (u : TransactionUpdate)
    (hnd : (store.map Transaction.transaction_id).Nodup) :
    (add_transaction_to_bq store uid gid d = store ++ [new_transaction uid gid d]
      ∧ (new_transaction uid gid d).transaction_id = gid
      ∧ (new_transaction uid gid d).user_id = uid)
    ∧ (∀ r ∈ store, ¬(r.user_id = uid ∧ r.transaction_id = tid) →
        r ∈ delete_transaction_from_bq store uid tid
          ∧ r ∈ update_transaction_in_bq store uid tid u)
    ∧ (store.filter (fun r => r.user_id == uid && r.transaction_id == tid)).length ≤ 1 := by
  refine ⟨⟨rfl, rfl, rfl⟩, ?_, ?_⟩
  · intro r hr hne
    have hb : (r.user_id == uid && r.transaction_id == tid) = false := by
      by_cases h1 : r.user_id = uid
      · by_cases h2 : r.transaction_id = tid
        · exact absurd ⟨h1, h2⟩ hne
        · simp [h1, h2]
      · simp [h1]
    constructor
    · unfold delete_transaction_from_bq
      rw [List.mem_filter]
      refine ⟨hr, ?_⟩
      rw [hb]
      rfl
    · unfold update_transaction_in_bq
      rw [List.mem_map]
      refine ⟨r, hr, ?_⟩
      rw [hb]
      simp
  · apply length_le_one_of_same_id tid
    · exact List.Nodup.sublist (List.Sublist.map _ (List.filter_sublist store)) hnd
    · intro r hrf
      rw [List.mem_filter] at hrf
      have h2 := hrf.2
      simp only [Bool.and_eq_true, beq_iff_eq] at h2
      exact h2.2

theorem mutation_frame_by_surrogate_id_witness :
    (([r1ex, r3ex].map Transaction.transaction_id).Nodup)
    ∧ r1ex ∈ delete_transaction_from_bq [r1ex, r3ex] "u" "id3"
    ∧ r1ex ∈ update_transaction_in_bq [r1ex, r3ex] "u" "id3" uEx :=
  ⟨by decide,
   ((mutation_frame_by_surrogate_id [r1ex, r3ex] "u" "gid9" "id3" dEx uEx
      (by decide)).2.1 r1ex (List.mem_cons_self r1ex [r3ex]) (by decide)).1,
   ((mutation_frame_by_surrogate_id [r1ex, r3ex] "u" "gid9" "id3" dEx uEx
      (by decide)).2.1 r1ex (List.mem_cons_self r1ex [r3ex]) (by decide)).2⟩
